import Mathlib

/-!
Verification development for the widget client API of the matrix SDK.

The Rust sources are embedded shallowly:
* strings (`&str` / `String`) become `Str := List Char`;
* `Option` / `Result` become `Option` / `Except`;
* the asynchronous state machine in `client/handler/state.rs` becomes a pure
  step function over an explicit `State` record, with the outcomes of the
  collaborator calls (widget proxy round trips, matrix driver) supplied as
  data inside the record;
* instrumentation fields (`readInvoked`, `sendInvoked`, `negotiated`) record
  whether a collaborator operation was invoked by a step.
-/

namespace Widget

/-- Characters of a Rust string (`&str`), in order. -/
abbrev Str := List Char

/-- Model of Rust `str::split_once(c)`: splits at the first occurrence of `c`,
returning the parts before and after it, or `none` when `c` does not occur. -/
def splitOnce (c : Char) : Str → Option (Str × Str)
  | [] => none
  | x :: xs =>
    if x = c then some ([], xs)
    else
      match splitOnce c xs with
      | some (l, r) => some (x :: l, r)
      | none => none

/-- Model of Rust `str::strip_prefix(p)`: the remainder of `s` after the
prefix `p`, or `none` when `p` is not a prefix of `s`. -/
def prefixRest : Str → Str → Option Str
  | [], s => some s
  | _ :: _, [] => none
  | p :: ps, x :: xs => if x = p then prefixRest ps xs else none

/-! ## Event filters (`widget/filter.rs`)

Ruma event-type values (`TimelineEventType`, `MessageLikeEventType`,
`StateEventType`) are string-like newtypes; we model all of them as `Str`.
The conversion `TimelineEventType::from` preserves the underlying string,
and `TimelineEventType::RoomMessage` is the string `"m.room.message"`. -/

/-- Filter for message-like events. -/
inductive MessageLikeEventFilter where
  /-- Matches message-like events with the given `type`. -/
  | withType (event_type : Str)
  /-- Matches `m.room.message` events with the given `msgtype`. -/
  | roomMessageWithMsgtype (msgtype : Str)
deriving DecidableEq

/-- Filter for state events. -/
inductive StateEventFilter where
  /-- Matches state events with the given `type`, regardless of `state_key`. -/
  | withType (event_type : Str)
  /-- Matches state events with the given `type` and `state_key`. -/
  | withTypeAndStateKey (event_type : Str) (state_key : Str)
deriving DecidableEq

/-- Different kinds of filters for timeline events. -/
inductive EventFilter where
  /-- Filter for message-like events. -/
  | messageLike (f : MessageLikeEventFilter)
  /-- Filter for state events. -/
  | state (f : StateEventFilter)
deriving DecidableEq

/-- Content of a matrix event as far as filters are concerned
(`MatrixEventContent` in `filter.rs`). -/
structure MatrixEventContent where
  msgtype : Option Str
deriving DecidableEq

/-- Input to filter matching (`MatrixEventFilterInput` in `filter.rs`). -/
structure MatrixEventFilterInput where
  event_type : Str
  state_key : Option Str
  content : MatrixEventContent
deriving DecidableEq

/-- `MessageLikeEventFilter::matches` from `filter.rs`. -/
def MessageLikeEventFilter.matches (f : MessageLikeEventFilter)
    (matrix_event : MatrixEventFilterInput) : Bool :=
  if matrix_event.state_key.isSome then
    -- State event doesn't match a message-like event filter.
    false
  else
    match f with
    | .withType event_type => matrix_event.event_type = event_type
    | .roomMessageWithMsgtype msgtype =>
      matrix_event.event_type = ("m.room.message".toList)
        && matrix_event.content.msgtype = some msgtype

/-- `StateEventFilter::matches` from `filter.rs`. -/
def StateEventFilter.matches (f : StateEventFilter)
    (matrix_event : MatrixEventFilterInput) : Bool :=
  match matrix_event.state_key with
  | none =>
    -- Message-like event doesn't match a state event filter.
    false
  | some state_key =>
    match f with
    | .withType event_type => matrix_event.event_type = event_type
    | .withTypeAndStateKey event_type filter_state_key =>
      matrix_event.event_type = event_type && state_key = filter_state_key

/-- `EventFilter::matches` from `filter.rs`. -/
def EventFilter.matches : EventFilter → MatrixEventFilterInput → Bool
  | .messageLike f, e => f.matches e
  | .state f, e => f.matches e

/-! ## Permissions (`widget/permissions.rs`) -/

/-- The literal `org.matrix.msc2762.m.send.event`. -/
def SEND_EVENT : Str := "org.matrix.msc2762.m.send.event".toList

/-- The literal `org.matrix.msc2762.m.receive.event`. -/
def READ_EVENT : Str := "org.matrix.msc2762.m.receive.event".toList

/-- The literal `org.matrix.msc2762.m.send.state_event`. -/
def SEND_STATE : Str := "org.matrix.msc2762.m.send.state_event".toList

/-- The literal `org.matrix.msc2762.m.receive.state_event`. -/
def READ_STATE : Str := "org.matrix.msc2762.m.receive.state_event".toList

/-- The literal `io.element.requires_client`. -/
def REQUIRES_CLIENT : Str := "io.element.requires_client".toList

/-- Permissions that a widget can request from a client. -/
structure Permissions where
  /-- Types of the messages that a widget wants to be able to fetch. -/
  read : List EventFilter
  /-- Types of the messages that a widget wants to be able to send. -/
  send : List EventFilter
  /-- If a widget requests this capability the client is not allowed to open
  the widget in a separated browser. -/
  requiresClient : Bool
deriving DecidableEq

/-- `Display` for `PrintMessageLikeEventFilter` in `permissions.rs`.
Escaping of `#` and `\` in `event_type` is a TODO in the source and is not
performed. -/
def printMessageLikeEventFilter : MessageLikeEventFilter → Str
  | .withType event_type => event_type
  | .roomMessageWithMsgtype msgtype => ("m.room.message#".toList) ++ msgtype

/-- `Display` for `PrintStateEventFilter` in `permissions.rs`.
Escaping of `#` and `\` in `event_type` is a TODO in the source and is not
performed. -/
def printStateEventFilter : StateEventFilter → Str
  | .withType event_type => event_type
  | .withTypeAndStateKey event_type state_key => event_type ++ '#' :: state_key

/-- `Display` for `PrintEventFilter` in `permissions.rs`. -/
def printEventFilter : EventFilter → Str
  | .messageLike f => printMessageLikeEventFilter f
  | .state f => printStateEventFilter f

/-- The string emitted for one `read` filter by `Serialize for Permissions`:
`format!("{name}:{}", PrintEventFilter(filter))` where `name` is `READ_EVENT`
for a message-like filter and `READ_STATE` for a state filter. -/
def serializeReadPermission (filter : EventFilter) : Str :=
  (match filter with
   | .messageLike _ => READ_EVENT
   | .state _ => READ_STATE) ++ ':' :: printEventFilter filter

/-- The string emitted for one `send` filter by `Serialize for Permissions`:
`format!("{name}:{}", PrintEventFilter(filter))` where `name` is `SEND_EVENT`
for a message-like filter and `SEND_STATE` for a state filter. -/
def serializeSendPermission (filter : EventFilter) : Str :=
  (match filter with
   | .messageLike _ => SEND_EVENT
   | .state _ => SEND_STATE) ++ ':' :: printEventFilter filter

/-- `impl Serialize for Permissions`: the sequence of permission strings,
emitted in source order: the `requires_client` literal when the flag is set,
then one string per `read` filter, then one string per `send` filter. -/
def Permissions.serialize (p : Permissions) : List Str :=
  (if p.requiresClient then [REQUIRES_CLIENT] else [])
    ++ p.read.map serializeReadPermission
    ++ p.send.map serializeSendPermission

/-- The intermediate `Permission` enum local to `Deserialize for Permissions`. -/
inductive Permission where
  | requiresClient
  | read (filter : EventFilter)
  | send (filter : EventFilter)
  | unknown
deriving DecidableEq

/-- `parse_message_event_filter` from `permissions.rs`. The TODO about
un-escaping `\\` and `\#` is not implemented in the source and is not
modelled. -/
def parse_message_event_filter (s : Str) : MessageLikeEventFilter :=
  match prefixRest ("m.room.message#".toList) s with
  | some msgtype => .roomMessageWithMsgtype msgtype
  | none => .withType s

/-- `parse_state_event_filter` from `permissions.rs`. The TODO about escaped
`#` is not implemented in the source and is not modelled. -/
def parse_state_event_filter (s : Str) : StateEventFilter :=
  match splitOnce '#' s with
  | some (event_type, state_key) => .withTypeAndStateKey event_type state_key
  | none => .withType s

/-- `impl Deserialize for Permission`: every arm of the source returns `Ok`,
so the deserializer of one permission string is fallible in type but never
fails. At this abstraction level the input is already a string, so the only
fallible step of the source (`deserialize_cow_str`) cannot fail either. -/
def parsePermissionE (s : Str) : Except Str Permission :=
  if s = REQUIRES_CLIENT then .ok .requiresClient
  else
    match splitOnce ':' s with
    | some (pfx, filter_s) =>
      if pfx = READ_EVENT then
        .ok (.read (.messageLike (parse_message_event_filter filter_s)))
      else if pfx = SEND_EVENT then
        .ok (.send (.messageLike (parse_message_event_filter filter_s)))
      else if pfx = READ_STATE then
        .ok (.read (.state (parse_state_event_filter filter_s)))
      else if pfx = SEND_STATE then
        .ok (.send (.state (parse_state_event_filter filter_s)))
      else .ok .unknown
    | none => .ok .unknown

/-- The pure classification performed by `parsePermissionE` (same arms,
without the `Ok` wrapping). -/
def parseP (s : Str) : Permission :=
  if s = REQUIRES_CLIENT then .requiresClient
  else
    match splitOnce ':' s with
    | some (pfx, filter_s) =>
      if pfx = READ_EVENT then
        .read (.messageLike (parse_message_event_filter filter_s))
      else if pfx = SEND_EVENT then
        .send (.messageLike (parse_message_event_filter filter_s))
      else if pfx = READ_STATE then
        .read (.state (parse_state_event_filter filter_s))
      else if pfx = SEND_STATE then
        .send (.state (parse_state_event_filter filter_s))
      else .unknown
    | none => .unknown

/-- The loop body of `Deserialize for Permissions`: fold one parsed
`Permission` into the accumulated `Permissions` (push to `read`/`send`,
set the flag, ignore unknown permissions). -/
def applyPermission (p : Permissions) : Permission → Permissions
  | .requiresClient => { p with requiresClient := true }
  | .read filter => { p with read := p.read ++ [filter] }
  | .send filter => { p with send := p.send ++ [filter] }
  | .unknown => p

/-- Element-wise deserialization of `Vec::<Permission>::deserialize`. -/
def parsePermissionList : List Str → Except Str (List Permission)
  | [] => .ok []
  | s :: ss =>
    match parsePermissionE s with
    | .error e => .error e
    | .ok p =>
      match parsePermissionList ss with
      | .error e => .error e
      | .ok ps => .ok (p :: ps)

/-- `impl Deserialize for Permissions`: parse every string, then fold the
results into a `Permissions` value starting from `Permissions::default()`. -/
def Permissions.deserialize (ss : List Str) : Except Str Permissions :=
  match parsePermissionList ss with
  | .error e => .error e
  | .ok ps => .ok (ps.foldl applyPermission { read := [], send := [], requiresClient := false })

/-- A filter is expressible in the permission-string grammar when its plain
event type contains neither `#` nor `\` (the condition of the spec's
round-trip property). -/
def EventFilter.expressible : EventFilter → Bool
  | .messageLike (.withType t) => decide ('#' ∉ t) && decide ('\\' ∉ t)
  | .messageLike (.roomMessageWithMsgtype _) => true
  | .state (.withType t) => decide ('#' ∉ t) && decide ('\\' ∉ t)
  | .state (.withTypeAndStateKey t _) => decide ('#' ∉ t) && decide ('\\' ∉ t)

/-! ## Unknown permission strings -/

/-- The condition under which `Deserialize for Permission` classifies a string
as `Unknown`: it is not the `requires_client` literal, and its prefix before
the first `:` (when there is one) is none of the four known action prefixes. -/
def isUnknownPermission (s : Str) : Bool :=
  !(s = REQUIRES_CLIENT : Bool)
    && (match splitOnce ':' s with
        | some (pfx, _) =>
          !(pfx = READ_EVENT : Bool) && !(pfx = SEND_EVENT : Bool)
            && !(pfx = READ_STATE : Bool) && !(pfx = SEND_STATE : Bool)
        | none => true)

/-- Witness configuration for the round-trip and ordering claims. -/
def pW : Permissions :=
  { read := [.messageLike (.withType ("m.reaction".toList)),
             .messageLike (.roomMessageWithMsgtype ("m.text".toList)),
             .state (.withType ("m.room.topic".toList))],
    send := [.state (.withTypeAndStateKey ("m.room.name".toList) ("".toList))],
    requiresClient := true }

/-! ## Messages and headers

The `messages` module (`message.rs`, `from_widget.rs`, `to_widget.rs`) is not
among the sources at hand; only its shapes are used here, modelled from the
spec and from how `incoming.rs` and `state.rs` use them. -/

/-- Modelled from the spec: a message header carries an opaque identifier and
is echoed verbatim by responses (`Header` in the absent `messages` module). -/
structure Header where
  id : Str
deriving DecidableEq

/-- Empty request/response payload (`Empty` in the absent `messages`
module). -/
structure Empty where
deriving DecidableEq

/-- Supported API versions (`ApiVersion` in the absent `from_widget.rs`);
the five variants are the ones constructed by
`SupportedApiVersionsResponse::new` in `state.rs`. -/
inductive ApiVersion where
  | V0_0_1
  | V0_0_2
  | MSC2762
  | MSC2871
  | MSC3819
deriving DecidableEq

/-- Reply payload of `GetSupportedApiVersion`. -/
structure SupportedApiVersionsResponse where
  versions : List ApiVersion
deriving DecidableEq

/-- `SupportedApiVersionsResponse::new` from `state.rs`. -/
def SupportedApiVersionsResponse.new : SupportedApiVersionsResponse :=
  { versions := [.V0_0_1, .V0_0_2, .MSC2762, .MSC2871, .MSC3819] }

/-- Modelled from the spec: `GetOpenId` carries an empty payload
(`OpenIdRequest` lives in the absent `messages` module). -/
structure OpenIdRequest where
deriving DecidableEq

/-- Modelled from the spec: the reply to `GetOpenId` — allowed (with
credentials, kept opaque), blocked, or pending. -/
inductive OpenIdResponse where
  | allowed (credentials : Str)
  | blocked
  | pending
deriving DecidableEq

/-- Modelled from the spec: a final OpenID decision. -/
inductive OpenIdDecision where
  | allowed (credentials : Str)
  | blocked
deriving DecidableEq

/-- The `decision.into()` conversion used in the `GetOpenId` arm of
`State::handle`. -/
def OpenIdDecision.toResponse : OpenIdDecision → OpenIdResponse
  | .allowed credentials => .allowed credentials
  | .blocked => .blocked

/-- `OpenIdStatus` (`openid.rs`, absent from the sources at hand), modelled
from its use in `state.rs`: either an already resolved decision, or a
pending handle that later yields a decision (`.error ()` models the handle
failing because the widget disconnected). -/
inductive OpenIdStatus where
  | resolved (decision : OpenIdDecision)
  | pending (handle : Except Unit OpenIdDecision)

/-- `SendEventRequest` (absent `from_widget.rs`) with the fields destructured
by `filter.rs`. The raw JSON `content` is modelled by the result of parsing
it as `MatrixEventContent` (`none` when `msgtype` is not a string). -/
structure SendEventRequest where
  event_type : Str
  state_key : Option Str
  content : Option MatrixEventContent
deriving DecidableEq

/-- `MatrixEventFilterInput::from_send_event_request` from `filter.rs`: if
content fails to deserialize, pretend that there is no msgtype as far as
filters are concerned. -/
def MatrixEventFilterInput.from_send_event_request (req : SendEventRequest) :
    MatrixEventFilterInput :=
  { event_type := req.event_type, state_key := req.state_key,
    content := req.content.getD { msgtype := none } }

/-- Modelled from the spec: the reply to `SendEvent` is
`{ event_id, room_id }`. -/
structure SendEventResponse where
  event_id : Str
  room_id : Str
deriving DecidableEq

/-- Modelled from the spec: `ReadEvent` filter parameters, kept opaque. -/
structure ReadEventRequest where
  raw : Str
deriving DecidableEq

/-- Modelled from the spec: the reply to `ReadEvent` is the list of matched
events, kept opaque. -/
structure ReadEventResponse where
  events : List Str
deriving DecidableEq

/-- `messages::Request<T>` (absent `message.rs`): the request kind of an
action, carrying the request data (`content` is the field `incoming.rs`
dereferences to). -/
structure RequestBody (ρ : Type) where
  content : ρ
deriving DecidableEq

deriving instance DecidableEq for Except

/-- Modelled from the spec: a message kind is either a request carrying
input data or a response carrying `Ok(data)` or `Err(message)`. -/
inductive MessageKind (ρ σ : Type) where
  | request (body : RequestBody ρ)
  | response (body : Except Str σ)
deriving DecidableEq

/-- Modelled from the spec: `messages::Request::map` packages a result as
the response kind of the same action (absent `message.rs`). -/
def RequestBody.map {ρ σ : Type} (_ : RequestBody ρ)
    (response_data : Except Str σ) : MessageKind ρ σ :=
  .response response_data

/-- `from_widget::Action` (absent `from_widget.rs`), modelled from the
spec's closed action set: each variant carries a request or response kind. -/
inductive FromWidgetAction where
  | getSupportedApiVersion (m : MessageKind Empty SupportedApiVersionsResponse)
  | contentLoaded (m : MessageKind Empty Empty)
  | getOpenId (m : MessageKind OpenIdRequest OpenIdResponse)
  | sendEvent (m : MessageKind SendEventRequest SendEventResponse)
  | readEvent (m : MessageKind ReadEventRequest ReadEventResponse)
deriving DecidableEq

/-! ## Incoming requests (`client/handler/incoming.rs`) -/

/-- `WithHeader` from `incoming.rs`: `data` and the `header` associated with
it, so that no request is handled without its header and every response
carries the request's original header. -/
structure WithHeader (α : Type) where
  header : Header
  data : α
deriving DecidableEq

/-- A response that could be sent back to a widget (`incoming.rs`). -/
abbrev Response := WithHeader FromWidgetAction

/-- The `Request` enum generated by `generate_requests!` in `incoming.rs`:
all valid incoming request types, each carrying its request data together
with its header. -/
inductive IncomingRequest where
  | getSupportedApiVersion (r : WithHeader (RequestBody Empty))
  | contentLoaded (r : WithHeader (RequestBody Empty))
  | getOpenId (r : WithHeader (RequestBody OpenIdRequest))
  | sendEvent (r : WithHeader (RequestBody SendEventRequest))
  | readEvent (r : WithHeader (RequestBody ReadEventRequest))
deriving DecidableEq

/-- The header an incoming request was constructed with. -/
def IncomingRequest.header : IncomingRequest → Header
  | .getSupportedApiVersion r => r.header
  | .contentLoaded r => r.header
  | .getOpenId r => r.header
  | .sendEvent r => r.header
  | .readEvent r => r.header

/-- `map` of the macro-generated `GetSupportedApiVersion` request struct:
a response pairing the request's original header with the mapped action. -/
def mapGetSupportedApiVersion (r : WithHeader (RequestBody Empty))
    (response_data : Except Str SupportedApiVersionsResponse) : Response :=
  { header := r.header, data := .getSupportedApiVersion (r.data.map response_data) }

/-- `map` of the macro-generated `ContentLoaded` request struct. -/
def mapContentLoaded (r : WithHeader (RequestBody Empty))
    (response_data : Except Str Empty) : Response :=
  { header := r.header, data := .contentLoaded (r.data.map response_data) }

/-- `map` of the macro-generated `GetOpenId` request struct. -/
def mapGetOpenId (r : WithHeader (RequestBody OpenIdRequest))
    (response_data : Except Str OpenIdResponse) : Response :=
  { header := r.header, data := .getOpenId (r.data.map response_data) }

/-- `map` of the macro-generated `SendEvent` request struct. -/
def mapSendEvent (r : WithHeader (RequestBody SendEventRequest))
    (response_data : Except Str SendEventResponse) : Response :=
  { header := r.header, data := .sendEvent (r.data.map response_data) }

/-- `map` of the macro-generated `ReadEvent` request struct. -/
def mapReadEvent (r : WithHeader (RequestBody ReadEventRequest))
    (response_data : Except Str ReadEventResponse) : Response :=
  { header := r.header, data := .readEvent (r.data.map response_data) }

/-- `Request::fail` from `incoming.rs`: an error response echoing the
request's header. -/
def IncomingRequest.fail : IncomingRequest → Str → Response
  | .getSupportedApiVersion r, e => mapGetSupportedApiVersion r (.error e)
  | .contentLoaded r, e => mapContentLoaded r (.error e)
  | .getOpenId r, e => mapGetOpenId r (.error e)
  | .sendEvent r, e => mapSendEvent r (.error e)
  | .readEvent r, e => mapReadEvent r (.error e)

/-- `Request::new` from `incoming.rs`: only request kinds become valid
incoming requests; everything else yields `None`. -/
def IncomingRequest.new (header : Header) (action : FromWidgetAction) :
    Option IncomingRequest :=
  match action with
  | .getSupportedApiVersion (.request r) => some (.getSupportedApiVersion ⟨header, r⟩)
  | .contentLoaded (.request r) => some (.contentLoaded ⟨header, r⟩)
  | .getOpenId (.request r) => some (.getOpenId ⟨header, r⟩)
  | .sendEvent (.request r) => some (.sendEvent ⟨header, r⟩)
  | .readEvent (.request r) => some (.readEvent ⟨header, r⟩)
  | _ => none

/-! ## State machine (`client/handler/state.rs` and `mod.rs`) -/

/-- Modelled from the spec: the handler error type (`error.rs`, absent from
the sources at hand): custom per-request errors, widget disconnection, and
a widget error reply to an outgoing request. -/
inductive Error where
  | custom (message : Str)
  | widgetDisconnected
  | widgetErrorReply (message : Str)
deriving DecidableEq

/-- Modelled from the spec: `err.to_string()` as used by `State::listen`.
For `Error::custom` the spec (§4.6, §7) requires the custom string to reach
the widget verbatim as the failed response's error string. The rendering of
the two infrastructure variants is not pinned down by the spec and no claim
depends on it. -/
def Error.toMessage : Error → Str
  | .custom message => message
  | .widgetDisconnected => "widget disconnected".toList
  | .widgetErrorReply message => message

/-- Modelled from the spec (§3): the approved capability set
(`capabilities.rs`, absent from the sources at hand): read/send filter
lists, the `requires_client` flag, and optional `reader`/`sender` handles
to the chat client, modelled as response functions. -/
structure Capabilities where
  read : List EventFilter
  send : List EventFilter
  requiresClient : Bool
  reader : Option (ReadEventRequest → ReadEventResponse)
  sender : Option (SendEventRequest → SendEventResponse)

/-- Model of the `MatrixDriver` collaborator as used by `state.rs`: the
outcome of `get_openid` per request, and the capabilities produced by
`initialize` from the desired capability strings. -/
structure MatrixDriver where
  getOpenid : OpenIdRequest → OpenIdStatus
  initializeCaps : List Str → Capabilities

/-- Reply payload of the outgoing `Capabilities` request (modelled from the
spec: the widget's desired capability strings). -/
structure CapabilitiesResponse where
  capabilities : List Str
deriving DecidableEq

/-- Model of the `WidgetProxy` collaborator as used by `state.rs`: the
`init_on_load` setting and the outcomes of the outgoing round trips.
The outer `Except Error` is the transport layer (`.await?`), the inner
`Except Str` a widget error reply (`map_err(Error::WidgetErrorReply)`). -/
structure WidgetProxyModel where
  initOnLoad : Bool
  capsRequest : Except Error (Except Str CapabilitiesResponse)
  capsUpdateAck : Except Error (Except Str Empty)
  openIdUpdateAck : Except Error (Except Str Empty)

/-- `State` from `state.rs`: the capability state plus the collaborators. -/
structure State where
  capabilities : Option Capabilities
  widget : WidgetProxyModel
  client : MatrixDriver

/-- `State::caps` from `state.rs`. -/
def State.caps (st : State) : Except Error Capabilities :=
  match st.capabilities with
  | some c => .ok c
  | none => .error (.custom ("Capabilities have not been negotiated".toList))

/-- `State::initialize` from `state.rs`: request the desired capabilities
from the widget, have the client initialize them, store them, then send the
`CapabilitiesUpdated` message. Returns the new state and the `Result`. -/
def State.initialize (st : State) : State × Except Error Unit :=
  match st.widget.capsRequest with
  | .error e => (st, .error e)
  | .ok (.error m) => (st, .error (.widgetErrorReply m))
  | .ok (.ok desired) =>
    let capabilities := st.client.initializeCaps desired.capabilities
    let st' := { st with capabilities := some capabilities }
    match st.widget.capsUpdateAck with
    | .error e => (st', .error e)
    | .ok (.error m) => (st', .error (.widgetErrorReply m))
    | .ok (.ok _) => (st', .ok ())

/-- Outcome of one `State::handle` call: the new state, the replies sent to
the widget by `handle` itself (in order), the returned `Result`, plus
instrumentation: whether the chat client's `reader.read` / `sender.send`
was invoked and whether capability negotiation (`initialize`) ran. -/
structure HandleResult where
  state : State
  replies : List Response
  result : Except Error Unit
  readInvoked : Bool
  sendInvoked : Bool
  negotiated : Bool

/-- `State::handle` from `state.rs`, arm by arm. -/
def State.handle (st : State) (request : IncomingRequest) : HandleResult :=
  match request with
  | .getSupportedApiVersion req =>
    { state := st,
      replies := [mapGetSupportedApiVersion req (.ok SupportedApiVersionsResponse.new)],
      result := .ok (), readInvoked := false, sendInvoked := false, negotiated := false }
  | .contentLoaded req =>
    let rn : Except Str Empty × Bool :=
      match st.widget.initOnLoad, st.capabilities with
      | true, none => (.ok ⟨⟩, true)
      | true, some _ => (.error ("Already loaded".toList), false)
      | _, _ => (.ok ⟨⟩, false)
    if rn.2 then
      let inited := st.initialize
      { state := inited.1, replies := [mapContentLoaded req rn.1], result := inited.2,
        readInvoked := false, sendInvoked := false, negotiated := true }
    else
      { state := st, replies := [mapContentLoaded req rn.1], result := .ok (),
        readInvoked := false, sendInvoked := false, negotiated := false }
  | .getOpenId req =>
    match st.client.getOpenid req.data.content with
    | .resolved decision =>
      { state := st, replies := [mapGetOpenId req (.ok decision.toResponse)],
        result := .ok (), readInvoked := false, sendInvoked := false, negotiated := false }
    | .pending handle =>
      let reply := mapGetOpenId req (.ok .pending)
      match handle with
      | .error _ =>
        { state := st, replies := [reply], result := .error .widgetDisconnected,
          readInvoked := false, sendInvoked := false, negotiated := false }
      | .ok _ =>
        match st.widget.openIdUpdateAck with
        | .error e =>
          { state := st, replies := [reply], result := .error e,
            readInvoked := false, sendInvoked := false, negotiated := false }
        | .ok (.error m) =>
          { state := st, replies := [reply], result := .error (.widgetErrorReply m),
            readInvoked := false, sendInvoked := false, negotiated := false }
        | .ok (.ok _) =>
          { state := st, replies := [reply], result := .ok (),
            readInvoked := false, sendInvoked := false, negotiated := false }
  | .readEvent req =>
    match st.caps with
    | .error e =>
      { state := st, replies := [], result := .error e,
        readInvoked := false, sendInvoked := false, negotiated := false }
    | .ok caps =>
      match caps.reader with
      | none =>
        { state := st, replies := [],
          result := .error (.custom ("No permissions to read events".toList)),
          readInvoked := false, sendInvoked := false, negotiated := false }
      | some reader =>
        { state := st, replies := [mapReadEvent req (.ok (reader req.data.content))],
          result := .ok (), readInvoked := true, sendInvoked := false, negotiated := false }
  | .sendEvent req =>
    match st.caps with
    | .error e =>
      { state := st, replies := [], result := .error e,
        readInvoked := false, sendInvoked := false, negotiated := false }
    | .ok caps =>
      match caps.sender with
      | none =>
        { state := st, replies := [],
          result := .error (.custom ("No permissions to send events".toList)),
          readInvoked := false, sendInvoked := false, negotiated := false }
      | some sender =>
        { state := st, replies := [mapSendEvent req (.ok (sender req.data.content))],
          result := .ok (), readInvoked := false, sendInvoked := true, negotiated := false }

/-- One iteration of the `State::listen` loop in `state.rs`: run `handle`;
when it returns an error, additionally send `request.fail` of the error's
string. Returns the new state and all replies sent for the request, in
order. -/
def listenStep (st : State) (request : IncomingRequest) : State × List Response :=
  let h := st.handle request
  match h.result with
  | .ok _ => (h.state, h.replies)
  | .error e => (h.state, h.replies ++ [request.fail e.toMessage])

/-- Outcome of `MessageHandler::handle` (`handler/mod.rs`): a fast-path
reply, a request forwarded to the state machine task, or rejection of an
invalid message. -/
inductive HandlerOutcome where
  | reply (response : Response)
  | enqueued (request : IncomingRequest)
  | rejected (error : Error)
deriving DecidableEq

/-- `MessageHandler::handle` from `handler/mod.rs`: validate the action;
answer `GetSupportedApiVersion` on the fast path, forward everything else
to the state machine task. -/
def MessageHandler.handle (header : Header) (action : FromWidgetAction) :
    HandlerOutcome :=
  match IncomingRequest.new header action with
  | none => .rejected (.custom ("Invalid message".toList))
  | some (.getSupportedApiVersion r) =>
    .reply (mapGetSupportedApiVersion r (.ok SupportedApiVersionsResponse.new))
  | some request => .enqueued request

/-! ## Concrete witness configurations -/

/-- Sample header used by the concrete witness configurations. -/
def sampleHeader : Header := { id := "request-1".toList }

/-- Capabilities with no reader and no sender handle. -/
def capsNoHandles : Capabilities :=
  { read := [], send := [], requiresClient := false, reader := none, sender := none }

/-- Sample matrix driver used by the witness configurations. -/
def sampleDriver : MatrixDriver :=
  { getOpenid := fun _ => .resolved .blocked, initializeCaps := fun _ => capsNoHandles }

/-- Sample widget proxy with a given `init_on_load` setting. -/
def sampleWidget (b : Bool) : WidgetProxyModel :=
  { initOnLoad := b, capsRequest := .error .widgetDisconnected,
    capsUpdateAck := .ok (.ok ⟨⟩), openIdUpdateAck := .ok (.ok ⟨⟩) }

/-- Session state with no capabilities, `init_on_load = true`. -/
def stNoCaps : State :=
  { capabilities := none, widget := sampleWidget true, client := sampleDriver }

/-- Session state with capabilities set but no handles, `init_on_load = true`. -/
def stCapsNoHandles : State :=
  { capabilities := some capsNoHandles, widget := sampleWidget true, client := sampleDriver }

/-- Session state with capabilities set, `init_on_load = false`. -/
def stCapsInitFalse : State :=
  { capabilities := some capsNoHandles, widget := sampleWidget false, client := sampleDriver }

/-- Sample empty-bodied request with the sample header. -/
def sampleEmptyReq : WithHeader (RequestBody Empty) := ⟨sampleHeader, ⟨⟨⟩⟩⟩

/-- Sample read request with the sample header. -/
def sampleReadReq : WithHeader (RequestBody ReadEventRequest) :=
  ⟨sampleHeader, ⟨⟨"m.room.message".toList⟩⟩⟩

/-- Sample send request with the sample header. -/
def sampleSendReq : WithHeader (RequestBody SendEventRequest) :=
  ⟨sampleHeader, ⟨⟨"m.room.message".toList, none, none⟩⟩⟩

/-! ## Theorems -/

theorem splitOnce_append (c : Char) (l r : Str) (h : c ∉ l) :
    splitOnce c (l ++ c :: r) = some (l, r) := by
  induction l with
  | nil => simp [splitOnce]
  | cons x xs ih =>
    have hx : ¬x = c := fun e => h (e ▸ List.mem_cons_self x xs)
    have h' : c ∉ xs := fun m => h (List.mem_cons_of_mem _ m)
    simp [splitOnce, hx, ih h']

theorem splitOnce_eq_none (c : Char) (l : Str) (h : c ∉ l) :
    splitOnce c l = none := by
  induction l with
  | nil => rfl
  | cons x xs ih =>
    have hx : ¬x = c := fun e => h (e ▸ List.mem_cons_self x xs)
    have h' : c ∉ xs := fun m => h (List.mem_cons_of_mem _ m)
    simp [splitOnce, hx, ih h']

theorem prefixRest_append (p r : Str) : prefixRest p (p ++ r) = some r := by
  induction p with
  | nil => rfl
  | cons x xs ih => simp [prefixRest, ih]

theorem prefixRest_eq_append (p : Str) :
    ∀ s r : Str, prefixRest p s = some r → s = p ++ r := by
  induction p with
  | nil =>
    intro s r h
    simp [prefixRest] at h
    simp [h]
  | cons x xs ih =>
    intro s r h
    cases s with
    | nil => simp [prefixRest] at h
    | cons y ys =>
      rw [prefixRest] at h
      by_cases hyx : y = x
      · rw [if_pos hyx] at h
        simp [hyx, ih ys r h]
      · rw [if_neg hyx] at h
        cases h

theorem parsePermissionE_eq (s : Str) : parsePermissionE s = .ok (parseP s) := by
  unfold parsePermissionE parseP
  repeat' first | rfl | split

theorem parsePermissionList_eq (ss : List Str) :
    parsePermissionList ss = .ok (ss.map parseP) := by
  induction ss with
  | nil => rfl
  | cons s ss ih => simp [parsePermissionList, parsePermissionE_eq, ih]

theorem parse_print_message_filter (f : MessageLikeEventFilter)
    (h : EventFilter.expressible (.messageLike f) = true) :
    parse_message_event_filter (printMessageLikeEventFilter f) = f := by
  cases f with
  | withType t =>
    have ht : '#' ∉ t := by
      simp [EventFilter.expressible] at h
      exact h.1
    have hnone : prefixRest ("m.room.message#".toList) t = none := by
      cases heq : prefixRest ("m.room.message#".toList) t with
      | none => rfl
      | some r =>
        exfalso
        have happ := prefixRest_eq_append _ _ _ heq
        have hp : '#' ∈ ("m.room.message#".toList) := by decide
        exact ht (happ ▸ List.mem_append_left r hp)
    simp only [printMessageLikeEventFilter, parse_message_event_filter, hnone]
  | roomMessageWithMsgtype m =>
    simp only [printMessageLikeEventFilter, parse_message_event_filter, prefixRest_append]

theorem parse_print_state_filter (f : StateEventFilter)
    (h : EventFilter.expressible (.state f) = true) :
    parse_state_event_filter (printStateEventFilter f) = f := by
  cases f with
  | withType t =>
    have ht : '#' ∉ t := by
      simp [EventFilter.expressible] at h
      exact h.1
    simp only [printStateEventFilter, parse_state_event_filter, splitOnce_eq_none _ _ ht]
  | withTypeAndStateKey t k =>
    have ht : '#' ∉ t := by
      simp [EventFilter.expressible] at h
      exact h.1
    simp only [printStateEventFilter, parse_state_event_filter, splitOnce_append _ _ _ ht]

theorem parseP_serializeRead (f : EventFilter) (h : f.expressible = true) :
    parseP (serializeReadPermission f) = .read f := by
  cases f with
  | messageLike mf =>
    have hne : ¬(READ_EVENT ++ ':' :: printEventFilter (.messageLike mf)) = REQUIRES_CLIENT := by
      intro he
      have hc : ':' ∈ REQUIRES_CLIENT :=
        he ▸ List.mem_append_right READ_EVENT (List.mem_cons_self _ _)
      exact (by decide : ':' ∉ REQUIRES_CLIENT) hc
    have hsplit := splitOnce_append ':' READ_EVENT (printEventFilter (.messageLike mf))
      (by decide)
    simp only [serializeReadPermission, parseP, if_neg hne, hsplit, if_true]
    rw [printEventFilter, parse_print_message_filter mf h]
  | state sf =>
    have hne : ¬(READ_STATE ++ ':' :: printEventFilter (.state sf)) = REQUIRES_CLIENT := by
      intro he
      have hc : ':' ∈ REQUIRES_CLIENT :=
        he ▸ List.mem_append_right READ_STATE (List.mem_cons_self _ _)
      exact (by decide : ':' ∉ REQUIRES_CLIENT) hc
    have hsplit := splitOnce_append ':' READ_STATE (printEventFilter (.state sf))
      (by decide)
    simp only [serializeReadPermission, parseP, if_neg hne, hsplit, if_true]
    rw [printEventFilter, parse_print_state_filter sf h,
      if_neg (show ¬READ_STATE = READ_EVENT by decide),
      if_neg (show ¬READ_STATE = SEND_EVENT by decide)]

theorem parseP_serializeSend (f : EventFilter) (h : f.expressible = true) :
    parseP (serializeSendPermission f) = .send f := by
  cases f with
  | messageLike mf =>
    have hne : ¬(SEND_EVENT ++ ':' :: printEventFilter (.messageLike mf)) = REQUIRES_CLIENT := by
      intro he
      have hc : ':' ∈ REQUIRES_CLIENT :=
        he ▸ List.mem_append_right SEND_EVENT (List.mem_cons_self _ _)
      exact (by decide : ':' ∉ REQUIRES_CLIENT) hc
    have hsplit := splitOnce_append ':' SEND_EVENT (printEventFilter (.messageLike mf))
      (by decide)
    simp only [serializeSendPermission, parseP, if_neg hne, hsplit, if_true]
    rw [printEventFilter, parse_print_message_filter mf h,
      if_neg (show ¬SEND_EVENT = READ_EVENT by decide)]
  | state sf =>
    have hne : ¬(SEND_STATE ++ ':' :: printEventFilter (.state sf)) = REQUIRES_CLIENT := by
      intro he
      have hc : ':' ∈ REQUIRES_CLIENT :=
        he ▸ List.mem_append_right SEND_STATE (List.mem_cons_self _ _)
      exact (by decide : ':' ∉ REQUIRES_CLIENT) hc
    have hsplit := splitOnce_append ':' SEND_STATE (printEventFilter (.state sf))
      (by decide)
    simp only [serializeSendPermission, parseP, if_neg hne, hsplit, if_true]
    rw [printEventFilter, parse_print_state_filter sf h,
      if_neg (show ¬SEND_STATE = READ_EVENT by decide),
      if_neg (show ¬SEND_STATE = SEND_EVENT by decide),
      if_neg (show ¬SEND_STATE = READ_STATE by decide)]

theorem foldl_apply_reads (fs : List EventFilter) (acc : Permissions) :
    (fs.map Permission.read).foldl applyPermission acc
      = { acc with read := acc.read ++ fs } := by
  induction fs generalizing acc with
  | nil => simp
  | cons f fs ih =>
    simp only [List.map_cons, List.foldl_cons, applyPermission, ih,
      List.append_assoc, List.singleton_append]

theorem foldl_apply_sends (fs : List EventFilter) (acc : Permissions) :
    (fs.map Permission.send).foldl applyPermission acc
      = { acc with send := acc.send ++ fs } := by
  induction fs generalizing acc with
  | nil => simp
  | cons f fs ih =>
    simp only [List.map_cons, List.foldl_cons, applyPermission, ih,
      List.append_assoc, List.singleton_append]

theorem map_parseP_read (fs : List EventFilter)
    (hfs : ∀ f ∈ fs, f.expressible = true) :
    (fs.map serializeReadPermission).map parseP = fs.map Permission.read := by
  induction fs with
  | nil => rfl
  | cons f fs ih =>
    simp only [List.map_cons]
    rw [parseP_serializeRead f (hfs f (List.mem_cons_self _ _)),
      ih (fun g hg => hfs g (List.mem_cons_of_mem _ hg))]

theorem map_parseP_send (fs : List EventFilter)
    (hfs : ∀ f ∈ fs, f.expressible = true) :
    (fs.map serializeSendPermission).map parseP = fs.map Permission.send := by
  induction fs with
  | nil => rfl
  | cons f fs ih =>
    simp only [List.map_cons]
    rw [parseP_serializeSend f (hfs f (List.mem_cons_self _ _)),
      ih (fun g hg => hfs g (List.mem_cons_of_mem _ hg))]

theorem parseP_of_unknown (s : Str) (h : isUnknownPermission s = true) :
    parseP s = .unknown := by
  unfold isUnknownPermission at h
  rw [Bool.and_eq_true] at h
  obtain ⟨h1, h2⟩ := h
  have hne : ¬s = REQUIRES_CLIENT := by
    intro he
    simp [he] at h1
  rw [parseP, if_neg hne]
  cases hsp : splitOnce ':' s with
  | none => rfl
  | some pr =>
    obtain ⟨pfx, filter_s⟩ := pr
    rw [hsp] at h2
    simp only [Bool.and_eq_true, Bool.not_eq_true', decide_eq_false_iff_not] at h2
    obtain ⟨⟨⟨e1, e2⟩, e3⟩, e4⟩ := h2
    simp only [if_neg e1, if_neg e2, if_neg e3, if_neg e4]

theorem foldl_filter_unknown (ss : List Str) (acc : Permissions) :
    ((ss.filter (fun s => !isUnknownPermission s)).map parseP).foldl applyPermission acc
      = (ss.map parseP).foldl applyPermission acc := by
  induction ss generalizing acc with
  | nil => rfl
  | cons s ss ih =>
    by_cases h : isUnknownPermission s = true
    · have hp := parseP_of_unknown s h
      simp only [List.filter_cons, h, Bool.not_true, if_neg Bool.false_ne_true,
        List.map_cons, List.foldl_cons, hp]
      rw [show applyPermission acc Permission.unknown = acc from rfl, ih]
    · have h' : isUnknownPermission s = false := by
        cases hb : isUnknownPermission s
        · rfl
        · exact absurd hb h
      simp only [List.filter_cons, h', Bool.not_false, List.map_cons, List.foldl_cons]
      exact ih _

/-- C2: for every `Permissions` value whose read and send filters are all
expressible in the permission-string grammar (no `#` or `\` inside a plain
event type), deserializing the serialization yields the same value: same
`requires_client` flag, same read list, same send list, order preserved. -/
theorem permissions_round_trip (p : Permissions)
    (hr : ∀ f ∈ p.read, f.expressible = true)
    (hs : ∀ f ∈ p.send, f.expressible = true) :
    Permissions.deserialize (Permissions.serialize p) = .ok p := by
  obtain ⟨pr, ps, prc⟩ := p
  have hr' : ∀ f ∈ pr, f.expressible = true := hr
  have hs' : ∀ f ∈ ps, f.expressible = true := hs
  simp only [Permissions.deserialize, Permissions.serialize, parsePermissionList_eq,
    List.map_append, map_parseP_read pr hr', map_parseP_send ps hs']
  have hreq : parseP REQUIRES_CLIENT = Permission.requiresClient := by decide
  cases prc with
  | false =>
    simp [List.foldl_append, foldl_apply_reads, foldl_apply_sends]
  | true =>
    simp [hreq, List.foldl_append, foldl_apply_reads, foldl_apply_sends, applyPermission]

theorem permissions_round_trip_witness :
    (∀ f ∈ pW.read, f.expressible = true)
  ∧ (∀ f ∈ pW.send, f.expressible = true)
  ∧ Permissions.deserialize (Permissions.serialize pW) = .ok pW :=
  ⟨by decide, by decide, permissions_round_trip pW (by decide) (by decide)⟩

/-- C6: serialization emits the `requires_client` literal first (exactly when
the flag is set), then one string per read filter in list order, then one
string per send filter in list order, and the emitted length is
`requires_client + |read| + |send|`. -/
theorem serialize_order (p : Permissions) :
    (Permissions.serialize p).length
        = (if p.requiresClient then 1 else 0) + p.read.length + p.send.length
  ∧ (p.requiresClient = true → (Permissions.serialize p).head? = some REQUIRES_CLIENT)
  ∧ (∀ i, i < p.read.length →
      (Permissions.serialize p)[(if p.requiresClient then 1 else 0) + i]?
        = (p.read[i]?).map serializeReadPermission)
  ∧ (∀ j, j < p.send.length →
      (Permissions.serialize p)[(if p.requiresClient then 1 else 0) + p.read.length + j]?
        = (p.send[j]?).map serializeSendPermission) := by
  refine ⟨?_, ?_, ?_, ?_⟩
  · cases h : p.requiresClient <;> (simp [Permissions.serialize, h]; try omega)
  · intro h
    simp [Permissions.serialize, h]
  · intro i hi
    have h1 : (if p.requiresClient then [REQUIRES_CLIENT] else []).length
        = (if p.requiresClient then 1 else 0) := by
      cases h : p.requiresClient <;> simp
    rw [Permissions.serialize, List.getElem?_append_left, List.getElem?_append_right,
      h1, Nat.add_sub_cancel_left, List.getElem?_map]
    · rw [h1]
      omega
    · rw [List.length_append, h1, List.length_map]
      omega
  · intro j hj
    have h1 : (if p.requiresClient then [REQUIRES_CLIENT] else []).length
        = (if p.requiresClient then 1 else 0) := by
      cases h : p.requiresClient <;> simp
    rw [Permissions.serialize, List.getElem?_append_right, List.getElem?_map]
    · rw [List.length_append, h1, List.length_map,
        show (if p.requiresClient then 1 else 0) + p.read.length + j
            - ((if p.requiresClient then 1 else 0) + p.read.length) = j by omega]
    · rw [List.length_append, h1, List.length_map]
      omega

theorem serialize_order_witness :
    (Permissions.serialize pW).length
        = (if pW.requiresClient then 1 else 0) + pW.read.length + pW.send.length
  ∧ (Permissions.serialize pW).head? = some REQUIRES_CLIENT
  ∧ (Permissions.serialize pW)[(if pW.requiresClient then 1 else 0) + 0]?
        = (pW.read[0]?).map serializeReadPermission
  ∧ (Permissions.serialize pW)[(if pW.requiresClient then 1 else 0) + pW.read.length + 0]?
        = (pW.send[0]?).map serializeSendPermission := by
  have h := serialize_order pW
  exact ⟨h.1, h.2.1 rfl, h.2.2.1 0 (by decide), h.2.2.2 0 (by decide)⟩

/-- C7: deserialization of any list of permission strings never fails, and
strings classified as unknown (not the `requires_client` literal, prefix
before the first `:` not one of the four action prefixes) are silently
dropped: the result equals deserializing the list with them removed. -/
theorem deserialize_total_drops_unknown (ss : List Str) :
    (∃ q, Permissions.deserialize ss = .ok q)
  ∧ Permissions.deserialize ss
      = Permissions.deserialize (ss.filter (fun s => !isUnknownPermission s)) := by
  constructor
  · simp only [Permissions.deserialize, parsePermissionList_eq]
    exact ⟨_, rfl⟩
  · simp only [Permissions.deserialize, parsePermissionList_eq]
    rw [foldl_filter_unknown]

/-! ## Claims about the state machine -/

/-- C1: while capabilities are `None`, or while the corresponding
`reader`/`sender` handle is `None`, a `ReadEvent`/`SendEvent` request is
replied to with an error response (for a missing handle exactly
"No permissions to read events" / "No permissions to send events"), the
state is unchanged, and the chat client's read/send operation is never
invoked. -/
theorem capability_gate (st : State)
    (rr : WithHeader (RequestBody ReadEventRequest))
    (sr : WithHeader (RequestBody SendEventRequest)) :
    (st.capabilities = none →
      listenStep st (.readEvent rr)
          = (st, [⟨rr.header, .readEvent (.response (.error
              ("Capabilities have not been negotiated".toList)))⟩])
        ∧ (st.handle (.readEvent rr)).readInvoked = false
        ∧ listenStep st (.sendEvent sr)
          = (st, [⟨sr.header, .sendEvent (.response (.error
              ("Capabilities have not been negotiated".toList)))⟩])
        ∧ (st.handle (.sendEvent sr)).sendInvoked = false)
  ∧ (∀ c, st.capabilities = some c → c.reader = none →
      listenStep st (.readEvent rr)
          = (st, [⟨rr.header, .readEvent (.response (.error
              ("No permissions to read events".toList)))⟩])
        ∧ (st.handle (.readEvent rr)).readInvoked = false)
  ∧ (∀ c, st.capabilities = some c → c.sender = none →
      listenStep st (.sendEvent sr)
          = (st, [⟨sr.header, .sendEvent (.response (.error
              ("No permissions to send events".toList)))⟩])
        ∧ (st.handle (.sendEvent sr)).sendInvoked = false) := by
  refine ⟨fun hcaps => ?_, fun c hcaps hr => ?_, fun c hcaps hs => ?_⟩
  · refine ⟨?_, ?_, ?_, ?_⟩ <;>
      simp [listenStep, State.handle, State.caps, hcaps, IncomingRequest.fail,
        mapReadEvent, mapSendEvent, RequestBody.map, Error.toMessage]
  · refine ⟨?_, ?_⟩ <;>
      simp [listenStep, State.handle, State.caps, hcaps, hr, IncomingRequest.fail,
        mapReadEvent, RequestBody.map, Error.toMessage]
  · refine ⟨?_, ?_⟩ <;>
      simp [listenStep, State.handle, State.caps, hcaps, hs, IncomingRequest.fail,
        mapSendEvent, RequestBody.map, Error.toMessage]

theorem capability_gate_witness :
    listenStep stNoCaps (.readEvent sampleReadReq)
        = (stNoCaps, [⟨sampleHeader, .readEvent (.response (.error
            ("Capabilities have not been negotiated".toList)))⟩])
  ∧ listenStep stCapsNoHandles (.readEvent sampleReadReq)
        = (stCapsNoHandles, [⟨sampleHeader, .readEvent (.response (.error
            ("No permissions to read events".toList)))⟩])
  ∧ listenStep stCapsNoHandles (.sendEvent sampleSendReq)
        = (stCapsNoHandles, [⟨sampleHeader, .sendEvent (.response (.error
            ("No permissions to send events".toList)))⟩]) :=
  ⟨((capability_gate stNoCaps sampleReadReq sampleSendReq).1 rfl).1,
   ((capability_gate stCapsNoHandles sampleReadReq sampleSendReq).2.1
      capsNoHandles rfl rfl).1,
   ((capability_gate stCapsNoHandles sampleReadReq sampleSendReq).2.2
      capsNoHandles rfl rfl).1⟩

/-- C3: a message-like filter never matches an event whose `state_key` is
present; a state filter never matches an event whose `state_key` is
absent. -/
theorem filter_state_key_gate (mf : MessageLikeEventFilter)
    (sf : StateEventFilter) (e : MatrixEventFilterInput) :
    (e.state_key.isSome = true → EventFilter.matches (.messageLike mf) e = false)
  ∧ (e.state_key = none → EventFilter.matches (.state sf) e = false) := by
  constructor
  · intro h
    simp [EventFilter.matches, MessageLikeEventFilter.matches, h]
  · intro h
    simp [EventFilter.matches, StateEventFilter.matches, h]

theorem filter_state_key_gate_witness :
    EventFilter.matches
        (.messageLike (.withType ("m.room.message".toList)))
        ⟨"m.room.message".toList, some ("".toList), ⟨none⟩⟩ = false
  ∧ EventFilter.matches
        (.state (.withType ("m.room.topic".toList)))
        ⟨"m.room.topic".toList, none, ⟨none⟩⟩ = false :=
  ⟨(filter_state_key_gate (.withType ("m.room.message".toList))
      (.withType ("m.room.topic".toList))
      ⟨"m.room.message".toList, some ("".toList), ⟨none⟩⟩).1 rfl,
   (filter_state_key_gate (.withType ("m.room.message".toList))
      (.withType ("m.room.topic".toList))
      ⟨"m.room.topic".toList, none, ⟨none⟩⟩).2 rfl⟩

/-- C4 counterexample: with `init_on_load = false` and capabilities already
set, a `ContentLoaded` request is replied to with `Ok({})` and not with the
"Already loaded" error — refuting the claim that the error is produced
regardless of the `init_on_load` setting. -/
theorem content_loaded_counterexample :
    stCapsInitFalse.capabilities.isSome = true
  ∧ stCapsInitFalse.widget.initOnLoad = false
  ∧ listenStep stCapsInitFalse (.contentLoaded sampleEmptyReq)
      = (stCapsInitFalse, [⟨sampleHeader, .contentLoaded (.response (.ok ⟨⟩))⟩])
  ∧ (listenStep stCapsInitFalse (.contentLoaded sampleEmptyReq)).2
      ≠ [⟨sampleHeader, .contentLoaded (.response (.error
          ("Already loaded".toList)))⟩] := by
  refine ⟨rfl, rfl, rfl, ?_⟩
  decide

/-- C4 amended: a `ContentLoaded` request when capabilities are already set
is replied to with the error "Already loaded" when `init_on_load` is true
(with `init_on_load = false` the reply is `Ok({})` instead). -/
theorem content_loaded_already_loaded (st : State)
    (req : WithHeader (RequestBody Empty)) (c : Capabilities)
    (hinit : st.widget.initOnLoad = true) (hcaps : st.capabilities = some c) :
    listenStep st (.contentLoaded req)
      = (st, [⟨req.header, .contentLoaded (.response (.error
          ("Already loaded".toList)))⟩]) := by
  simp [listenStep, State.handle, hinit, hcaps, mapContentLoaded, RequestBody.map]

theorem content_loaded_already_loaded_witness :
    stCapsNoHandles.widget.initOnLoad = true
  ∧ listenStep stCapsNoHandles (.contentLoaded sampleEmptyReq)
      = (stCapsNoHandles, [⟨sampleHeader, .contentLoaded (.response (.error
          ("Already loaded".toList)))⟩]) :=
  ⟨rfl, content_loaded_already_loaded stCapsNoHandles sampleEmptyReq
    capsNoHandles rfl rfl⟩

/-- C10: with `init_on_load = false`, every `ContentLoaded` request —
including when capabilities are already set — is replied to with `Ok({})`,
the state is unchanged, and no capability negotiation is triggered. -/
theorem content_loaded_no_init (st : State)
    (req : WithHeader (RequestBody Empty))
    (hinit : st.widget.initOnLoad = false) :
    listenStep st (.contentLoaded req)
      = (st, [⟨req.header, .contentLoaded (.response (.ok ⟨⟩))⟩])
  ∧ (st.handle (.contentLoaded req)).state = st
  ∧ (st.handle (.contentLoaded req)).negotiated = false := by
  cases hcaps : st.capabilities with
  | none =>
    refine ⟨?_, ?_, ?_⟩ <;>
      simp [listenStep, State.handle, hinit, hcaps, mapContentLoaded, RequestBody.map]
  | some c =>
    refine ⟨?_, ?_, ?_⟩ <;>
      simp [listenStep, State.handle, hinit, hcaps, mapContentLoaded, RequestBody.map]

theorem content_loaded_no_init_witness :
    stCapsInitFalse.widget.initOnLoad = false
  ∧ stCapsInitFalse.capabilities.isSome = true
  ∧ (listenStep stCapsInitFalse (.contentLoaded sampleEmptyReq)
        = (stCapsInitFalse, [⟨sampleHeader, .contentLoaded (.response (.ok ⟨⟩))⟩])
     ∧ (stCapsInitFalse.handle (.contentLoaded sampleEmptyReq)).state = stCapsInitFalse
     ∧ (stCapsInitFalse.handle (.contentLoaded sampleEmptyReq)).negotiated = false) :=
  ⟨rfl, rfl, content_loaded_no_init stCapsInitFalse sampleEmptyReq rfl⟩

/-- C5: the response produced by each macro-generated `map`, and the error
response produced by `Request::fail`, carries exactly the header the
request was constructed with. -/
theorem response_header_echo
    (r1 : WithHeader (RequestBody Empty)) (v1 : Except Str SupportedApiVersionsResponse)
    (r2 : WithHeader (RequestBody Empty)) (v2 : Except Str Empty)
    (r3 : WithHeader (RequestBody OpenIdRequest)) (v3 : Except Str OpenIdResponse)
    (r4 : WithHeader (RequestBody SendEventRequest)) (v4 : Except Str SendEventResponse)
    (r5 : WithHeader (RequestBody ReadEventRequest)) (v5 : Except Str ReadEventResponse)
    (req : IncomingRequest) (e : Str) :
    (mapGetSupportedApiVersion r1 v1).header = r1.header
  ∧ (mapContentLoaded r2 v2).header = r2.header
  ∧ (mapGetOpenId r3 v3).header = r3.header
  ∧ (mapSendEvent r4 v4).header = r4.header
  ∧ (mapReadEvent r5 v5).header = r5.header
  ∧ (req.fail e).header = req.header := by
  refine ⟨rfl, rfl, rfl, rfl, rfl, ?_⟩
  cases req <;> rfl

/-- C8: `GetSupportedApiVersion` is answered — by the state machine and on
the fast path — with the same constant version list `[V0_0_1, V0_0_2,
MSC2762, MSC2871, MSC3819]`, and handling it neither depends on nor
modifies the capabilities state. -/
theorem supported_api_versions_constant (st : State)
    (req : WithHeader (RequestBody Empty)) (header : Header)
    (body : RequestBody Empty) :
    st.handle (.getSupportedApiVersion req)
      = { state := st,
          replies := [⟨req.header, .getSupportedApiVersion (.response (.ok
            ⟨[.V0_0_1, .V0_0_2, .MSC2762, .MSC2871, .MSC3819]⟩))⟩],
          result := .ok (), readInvoked := false, sendInvoked := false,
          negotiated := false }
  ∧ MessageHandler.handle header (.getSupportedApiVersion (.request body))
      = .reply ⟨header, .getSupportedApiVersion (.response (.ok
          ⟨[.V0_0_1, .V0_0_2, .MSC2762, .MSC2871, .MSC3819]⟩))⟩ :=
  ⟨rfl, rfl⟩

end Widget
